import Mathlib

/-!
Shallow embedding of `zabbix_template_readme_generator.py`.

The script walks a parsed YAML tree (generic nested mappings, sequences and
scalars), extracts flat records for items, triggers, macros and discovery
rules, and renders them as markdown tables.  The parsed tree is modelled by
the inductive type `Val`; Python dictionary access `d.get(k, default)`
becomes `Val.getD`, iteration over a possibly missing list becomes
`Val.asList`, and the built-in `str` coercion becomes `pyStr`.  The external
translation provider used by `dual_description` is a parameter of type
`Translator`; a raised provider exception is an `Except.error` value, and the
diagnostic message printed by the script is returned alongside the result by
`dual_description_run`.
-/

set_option autoImplicit false

/-- A parsed YAML value: `None`, a text scalar, an integer scalar, a
sequence, or a mapping (association list, first binding wins). -/
inductive Val where
  | none
  | str (s : String)
  | int (n : Int)
  | list (xs : List Val)
  | map (kvs : List (String × Val))

/-- First value bound to `key`, if any (Python dictionaries have unique
keys, so taking the first binding is faithful). -/
def lookupKey : List (String × Val) → String → Option Val
  | [], _ => Option.none
  | (k, v) :: rest, key => if k = key then some v else lookupKey rest key

/-- Python `d.get(key, default)`.  The script only calls `.get` on values
that are mappings; on a non-mapping we return the default. -/
def Val.getD (v : Val) (key : String) (dflt : Val) : Val :=
  match v with
  | .map kvs =>
    match lookupKey kvs key with
    | some w => w
    | Option.none => dflt
  | _ => dflt

/-- Python `d.get(key)` with no default: absent keys give `None`. -/
def Val.get1 (v : Val) (key : String) : Val :=
  v.getD key .none

/-- Iterating a value as a Python list; the script only iterates values
that are sequences. -/
def Val.asList : Val → List Val
  | .list xs => xs
  | _ => []

/-- The single-quote character used by Python `repr` of a string. -/
def pyQuote : Char := Char.ofNat 39

mutual
/-- Python `repr`.  Escape sequences inside the repr of a string are not
modelled; no rendered cell in this development is a collection, so the
collection cases exist only for totality. -/
def pyRepr : Val → String
  | .none => "None"
  | .str s => String.singleton pyQuote ++ s ++ String.singleton pyQuote
  | .int n => toString n
  | .list xs => "[" ++ pyReprList xs ++ "]"
  | .map kvs => "\x7b" ++ pyReprMap kvs ++ "\x7d"

/-- Comma-separated reprs of the elements of a sequence. -/
def pyReprList : List Val → String
  | [] => ""
  | [x] => pyRepr x
  | x :: y :: rest => pyRepr x ++ ", " ++ pyReprList (y :: rest)

/-- Comma-separated `key: value` reprs of the bindings of a mapping. -/
def pyReprMap : List (String × Val) → String
  | [] => ""
  | [(k, v)] => String.singleton pyQuote ++ k ++ String.singleton pyQuote ++ ": " ++ pyRepr v
  | (k, v) :: p :: rest =>
    String.singleton pyQuote ++ k ++ String.singleton pyQuote ++ ": " ++ pyRepr v ++ ", "
      ++ pyReprMap (p :: rest)
end

/-- Python `str`: identity on text, decimal on integers, `repr` on the
rest. -/
def pyStr : Val → String
  | .str s => s
  | v => pyRepr v

/-- One pass of Python `text.replace(pat, rep)` for a single-character
pattern, on the character list of the string. -/
def replaceChar (pat : Char) (rep : List Char) : List Char → List Char
  | [] => []
  | c :: rest => (if c = pat then rep else [c]) ++ replaceChar pat rep rest

/-- Embedding of `sanitize_description`: `text.replace('\n', '<br>').replace('|', '\\|')`. -/
def sanitize_description (text : String) : String :=
  String.mk (replaceChar '|' ['\\', '|'] (replaceChar '\n' ['<', 'b', 'r', '>'] text.data))

/-- Python `text.strip()` with the default whitespace set. -/
def py_strip (s : String) : String :=
  String.mk (((s.data.dropWhile Char.isWhitespace).reverse.dropWhile Char.isWhitespace).reverse)

/-- The external translation provider: returns the translated text, or the
message of the exception it raised. -/
def Translator : Type := String → Except String String

/-- Embedding of `dual_description`, with the diagnostic message the script would print
returned as the second component.  Flag off or blank text: the input is
returned and the provider is not consulted.  Provider success: the
bilingual composite.  Provider exception: the diagnostic is reported and
the original text is returned, so the caller never sees the error. -/
def dual_description_run (tr : Translator) (text : String) (do_translate : Bool) :
    String × Option String :=
  if !do_translate || py_strip text = "" then (text, Option.none)
  else
    match tr text with
    | .ok ru => (ru ++ "<br><i>" ++ text ++ "</i>", Option.none)
    | .error e => (text, some ("Ошибка перевода: " ++ e))

/-- The value `dual_description` returns to its caller. -/
def dual_description (tr : Translator) (text : String) (do_translate : Bool) : String :=
  (dual_description_run tr text do_translate).1

/-- Record built by `extract_items`: the raw field values, plus the
augmented description text. -/
structure ItemRecord where
  name : Val
  key : Val
  type : Val
  value_type : Val
  units : Val
  description : String

/-- Record built by `extract_triggers`. -/
structure TriggerRecord where
  name : Val
  expression : Val
  priority : Val
  description : String

/-- Record built by `extract_macros` (source key `macro`). -/
structure MacroRecord where
  macroName : Val
  value : Val
  description : String

/-- Record built by `extract_discovery_rules`. -/
structure DRuleRecord where
  name : Val
  key : Val
  description : String

/-- Embedding of `extract_items`: one record per entry of the template item list. -/
def extract_items (tr : Translator) (do_translate : Bool) (template : Val) :
    List ItemRecord :=
  (template.getD "items" (.list [])).asList.map fun item =>
    { name := item.getD "name" (.str "")
      key := item.getD "key" (.str "")
      type := item.getD "type" (.str "")
      value_type := item.getD "value_type" (.str "")
      units := item.getD "units" (.str "")
      description := dual_description tr (pyStr (item.getD "description" (.str ""))) do_translate }

/-- The trigger record built from one trigger mapping (the same field set
is used for item-nested and template-level triggers). -/
def mkTriggerRecord (tr : Translator) (do_translate : Bool) (trigger : Val) : TriggerRecord :=
  { name := trigger.getD "name" (.str "")
    expression := trigger.getD "expression" (.str "")
    priority := trigger.getD "priority" (.str "")
    description := dual_description tr (pyStr (trigger.getD "description" (.str ""))) do_translate }

/-- Embedding of `extract_triggers`: first the nested trigger lists of every item, in
item order, appended one item at a time; then the template-level trigger
list. -/
def extract_triggers (tr : Translator) (do_translate : Bool) (template : Val) :
    List TriggerRecord :=
  ((template.getD "items" (.list [])).asList.foldl
      (fun acc item =>
        acc ++ ((item.getD "triggers" (.list [])).asList.map (mkTriggerRecord tr do_translate)))
      [])
    ++ (template.getD "triggers" (.list [])).asList.map (mkTriggerRecord tr do_translate)

/-- Embedding of `extract_macros`: one record per entry of the template macro list. -/
def extract_macros (tr : Translator) (do_translate : Bool) (template : Val) :
    List MacroRecord :=
  (template.getD "macros" (.list [])).asList.map fun m =>
    { macroName := m.getD "macro" (.str "")
      value := m.getD "value" (.str "")
      description := dual_description tr (pyStr (m.getD "description" (.str ""))) do_translate }

/-- Embedding of `extract_discovery_rules`: one record per discovery-rule entry. -/
def extract_discovery_rules (tr : Translator) (do_translate : Bool) (template : Val) :
    List DRuleRecord :=
  (template.getD "discovery_rules" (.list [])).asList.map fun d =>
    { name := d.getD "name" (.str "")
      key := d.getD "key" (.str "")
      description := dual_description tr (pyStr (d.getD "description" (.str ""))) do_translate }

/-- Embedding of `markdown_table`: header row, separator row with one `---` group per
header, then one row per record, each cell stringified and sanitized. -/
def markdown_table (headers : List String) (rows : List (List Val)) : String :=
  List.foldl
    (fun acc row =>
      acc ++ "| "
        ++ String.intercalate " | " (row.map (fun cell => sanitize_description (pyStr cell)))
        ++ " |\n")
    ("| " ++ String.intercalate " | " headers ++ " |\n"
      ++ "| " ++ String.intercalate " | " (List.replicate headers.length "---") ++ " |\n")
    rows

/-- The header row of `markdown_table` on its own. -/
def headerRow (headers : List String) : String :=
  "| " ++ String.intercalate " | " headers ++ " |\n"

/-- The separator row of `markdown_table` on its own: it depends only on
the number of headers, never on the rows. -/
def sepRow (headers : List String) : String :=
  "| " ++ String.intercalate " | " (List.replicate headers.length "---") ++ " |\n"

/-- One data row of `markdown_table` on its own: one cell per entry of the
record, each stringified and sanitized. -/
def renderRow (row : List Val) : String :=
  "| " ++ String.intercalate " | " (row.map (fun cell => sanitize_description (pyStr cell))) ++ " |\n"

/-- Headers of the Items table (also used for item prototypes). -/
def itemsHeaders : List String := ["Name", "Key", "Type", "Value type", "Units", "Description"]

/-- Headers of the Triggers table (also used for trigger prototypes). -/
def triggersHeaders : List String := ["Name", "Expression", "Priority", "Description"]

/-- Headers of the Macros table. -/
def macrosHeaders : List String := ["Macro", "Value", "Description"]

/-- Headers of the Discovery rules table. -/
def drulesHeaders : List String := ["Name", "Key", "Description"]

/-- The rows the assembler builds for the Items section: `type` and
`value_type` are coerced to text with `str` here, before the renderer. -/
def item_rows (items : List ItemRecord) : List (List Val) :=
  items.map fun i =>
    [i.name, i.key, .str (pyStr i.type), .str (pyStr i.value_type), i.units, .str i.description]

/-- The rows the assembler builds for the Triggers section. -/
def trigger_rows (triggers : List TriggerRecord) : List (List Val) :=
  triggers.map fun t => [t.name, t.expression, t.priority, .str t.description]

/-- The rows the assembler builds for the Macros section. -/
def macro_rows (macros : List MacroRecord) : List (List Val) :=
  macros.map fun m => [m.macroName, m.value, .str m.description]

/-- The rows the assembler builds for the Discovery rules section. -/
def drule_rows (drules : List DRuleRecord) : List (List Val) :=
  drules.map fun d => [d.name, d.key, .str d.description]

/-- The rows the assembler builds inline for one Item prototypes
subsection: `type` and `value_type` pass through `str` here. -/
def item_proto_rows (tr : Translator) (do_translate : Bool) (protos : List Val) :
    List (List Val) :=
  protos.map fun ip =>
    [ip.getD "name" (.str ""), ip.getD "key" (.str ""),
     .str (pyStr (ip.getD "type" (.str ""))), .str (pyStr (ip.getD "value_type" (.str ""))),
     ip.getD "units" (.str ""),
     .str (dual_description tr (pyStr (ip.getD "description" (.str ""))) do_translate)]

/-- The rows the assembler builds inline for one Trigger prototypes
subsection. -/
def trigger_proto_rows (tr : Translator) (do_translate : Bool) (protos : List Val) :
    List (List Val) :=
  protos.map fun tp =>
    [tp.getD "name" (.str ""), tp.getD "expression" (.str ""), tp.getD "priority" (.str ""),
     .str (dual_description tr (pyStr (tp.getD "description" (.str ""))) do_translate)]

/-- The description paragraph of one template: stripped, and emitted only
when non-empty (augmented, then sanitized). -/
def render_description (tr : Translator) (do_translate : Bool) (tpl : Val) : String :=
  if py_strip (pyStr (tpl.getD "description" (.str ""))) = "" then ""
  else
    sanitize_description
        (dual_description tr (py_strip (pyStr (tpl.getD "description" (.str "")))) do_translate)
      ++ "\n\n"

/-- The Items section of one template; empty when there are no items. -/
def render_items_section (tr : Translator) (do_translate : Bool) (tpl : Val) : String :=
  if (extract_items tr do_translate tpl).isEmpty then ""
  else
    "## Items\n\n"
      ++ markdown_table itemsHeaders (item_rows (extract_items tr do_translate tpl)) ++ "\n\n"

/-- The Triggers section of one template; empty when there are no
triggers. -/
def render_triggers_section (tr : Translator) (do_translate : Bool) (tpl : Val) : String :=
  if (extract_triggers tr do_translate tpl).isEmpty then ""
  else
    "## Triggers\n\n"
      ++ markdown_table triggersHeaders (trigger_rows (extract_triggers tr do_translate tpl))
      ++ "\n\n"

/-- The Macros section of one template; empty when there are no macros. -/
def render_macros_section (tr : Translator) (do_translate : Bool) (tpl : Val) : String :=
  if (extract_macros tr do_translate tpl).isEmpty then ""
  else
    "## Macros\n\n"
      ++ markdown_table macrosHeaders (macro_rows (extract_macros tr do_translate tpl)) ++ "\n\n"

/-- The Item prototypes subsection for one discovery rule; empty when the
rule has no item prototypes.  The heading uses `dr.get('name')` with no
default, so an absent name renders as `None`. -/
def render_item_protos (tr : Translator) (do_translate : Bool) (dr : Val) : String :=
  if ((dr.getD "item_prototypes" (.list [])).asList).isEmpty then ""
  else
    "### Item prototypes for discovery: " ++ pyStr (dr.get1 "name") ++ "\n\n"
      ++ markdown_table itemsHeaders
          (item_proto_rows tr do_translate ((dr.getD "item_prototypes" (.list [])).asList))
      ++ "\n\n"

/-- The Trigger prototypes subsection for one discovery rule; empty when
the rule has no trigger prototypes. -/
def render_trigger_protos (tr : Translator) (do_translate : Bool) (dr : Val) : String :=
  if ((dr.getD "trigger_prototypes" (.list [])).asList).isEmpty then ""
  else
    "### Trigger prototypes for discovery: " ++ pyStr (dr.get1 "name") ++ "\n\n"
      ++ markdown_table triggersHeaders
          (trigger_proto_rows tr do_translate ((dr.getD "trigger_prototypes" (.list [])).asList))
      ++ "\n\n"

/-- The Discovery rules section of one template: the rules table, then,
per rule in order, the prototype subsections; empty when there are no
rules. -/
def render_drules_section (tr : Translator) (do_translate : Bool) (tpl : Val) : String :=
  if (extract_discovery_rules tr do_translate tpl).isEmpty then ""
  else
    "## Discovery rules\n\n"
      ++ markdown_table drulesHeaders
          (drule_rows (extract_discovery_rules tr do_translate tpl))
      ++ "\n\n"
      ++ String.join
          (((tpl.getD "discovery_rules" (.list [])).asList).map fun dr =>
            render_item_protos tr do_translate dr ++ render_trigger_protos tr do_translate dr)

/-- The output of the main loop body for one template: heading,
description paragraph, then the four sections in fixed order. -/
def render_template (tr : Translator) (do_translate : Bool) (tpl : Val) : String :=
  "# Template: " ++ pyStr (tpl.getD "template" (.str "")) ++ "\n\n"
    ++ render_description tr do_translate tpl
    ++ render_items_section tr do_translate tpl
    ++ render_triggers_section tr do_translate tpl
    ++ render_macros_section tr do_translate tpl
    ++ render_drules_section tr do_translate tpl

/-- The whole rendered document:
`data.get('zabbix_export', {}).get('templates', [])`, each template
rendered and accumulated in order. -/
def render_doc (tr : Translator) (do_translate : Bool) (data : Val) : String :=
  List.foldl (fun acc tpl => acc ++ render_template tr do_translate tpl) ""
    (((data.getD "zabbix_export" (.map [])).getD "templates" (.list [])).asList)

/-- Single-pass restatement of the sanitizer, following the words of the
specification: each line break becomes the inline break marker, each
column delimiter gains a preceding backslash, every other character is
kept unchanged. -/
def sanitizeSpecChars : List Char → List Char
  | [] => []
  | c :: rest =>
    if c = '\n' then '<' :: 'b' :: 'r' :: '>' :: sanitizeSpecChars rest
    else if c = '|' then '\\' :: '|' :: sanitizeSpecChars rest
    else c :: sanitizeSpecChars rest

/-- No column delimiter without an immediately preceding backslash: a
leading delimiter fails, a backslash-delimiter pair is consumed whole,
anything else is skipped. -/
def noUnescapedPipe : List Char → Bool
  | [] => true
  | '|' :: _ => false
  | '\\' :: '|' :: rest => noUnescapedPipe rest
  | _ :: rest => noUnescapedPipe rest

/-- Scan deciding that no column delimiter appears without an immediately
preceding backslash; `prev` is the character before the current suffix. -/
def noUnescapedAux (prev : Option Char) : List Char → Bool
  | [] => true
  | c :: rest =>
    (if c = '|' then prev = some '\\' else true) && noUnescapedAux (some c) rest

/-- Every column delimiter in the character list is immediately preceded
by a backslash. -/
def noUnescaped (l : List Char) : Bool :=
  noUnescapedAux Option.none l

/-- Concatenation of a list of strings, in order. -/
def concatList : List String → String
  | [] => ""
  | s :: rest => s ++ concatList rest

theorem sanitizeChars_eq (l : List Char) :
    replaceChar '|' ['\\', '|'] (replaceChar '\n' ['<', 'b', 'r', '>'] l)
      = sanitizeSpecChars l := by
  induction l with
  | nil => rfl
  | cons c rest ih =>
    by_cases h1 : c = '\n'
    · subst h1; simp [replaceChar, sanitizeSpecChars, ih]
    · by_cases h2 : c = '|'
      · subst h2; simp [replaceChar, sanitizeSpecChars, ih]
      · simp [replaceChar, sanitizeSpecChars, h1, h2, ih]

theorem sanitizeSpecChars_count_newline (l : List Char) :
    (sanitizeSpecChars l).count '\n' = 0 := by
  induction l with
  | nil => rfl
  | cons c rest ih =>
    by_cases h1 : c = '\n'
    · subst h1; simp [sanitizeSpecChars, List.count_cons, ih]
    · by_cases h2 : c = '|'
      · subst h2; simp [sanitizeSpecChars, List.count_cons, ih]
      · simp [sanitizeSpecChars, h1, h2, List.count_cons, ih]

theorem sanitizeSpecChars_count_pipe (l : List Char) :
    (sanitizeSpecChars l).count '|' = l.count '|' := by
  induction l with
  | nil => rfl
  | cons c rest ih =>
    by_cases h1 : c = '\n'
    · subst h1; simp [sanitizeSpecChars, List.count_cons, ih]
    · by_cases h2 : c = '|'
      · subst h2; simp [sanitizeSpecChars, List.count_cons, ih]
      · simp [sanitizeSpecChars, h1, h2, List.count_cons, ih]

theorem sanitizeSpecChars_count_backslash (l : List Char) :
    (sanitizeSpecChars l).count '\\' = l.count '\\' + l.count '|' := by
  induction l with
  | nil => rfl
  | cons c rest ih =>
    by_cases h1 : c = '\n'
    · subst h1; simp [sanitizeSpecChars, List.count_cons, ih]
    · by_cases h2 : c = '|'
      · subst h2; simp [sanitizeSpecChars, List.count_cons, ih]; omega
      · by_cases h3 : c = '\\'
        · subst h3; simp [sanitizeSpecChars, List.count_cons, ih]; omega
        · simp [sanitizeSpecChars, h1, h2, h3, List.count_cons, ih]

theorem sanitizeSpecChars_noUnescaped (l : List Char) :
    ∀ prev, noUnescapedAux prev (sanitizeSpecChars l) = true := by
  induction l with
  | nil => intro prev; rfl
  | cons c rest ih =>
    intro prev
    by_cases h1 : c = '\n'
    · subst h1; simp [sanitizeSpecChars, noUnescapedAux, ih]
    · by_cases h2 : c = '|'
      · subst h2; simp [sanitizeSpecChars, noUnescapedAux, ih]
      · simp [sanitizeSpecChars, h1, h2, noUnescapedAux, ih]

/-- Claim C3: the sanitizer replaces each line break with the inline break
marker and prefixes each column delimiter with a backslash, altering no
other characters (the single-pass restatement `sanitizeSpecChars` built
from the words of the specification); consequently the result has zero raw
line breaks, every remaining delimiter is immediately preceded by a
backslash, the delimiter count is unchanged, and exactly one backslash is
added per original delimiter. -/
theorem sanitize_description_correct (t : String) :
    sanitize_description t = String.mk (sanitizeSpecChars t.data)
    ∧ (sanitize_description t).data.count '\n' = 0
    ∧ noUnescaped (sanitize_description t).data = true
    ∧ (sanitize_description t).data.count '|' = t.data.count '|'
    ∧ (sanitize_description t).data.count '\\' = t.data.count '\\' + t.data.count '|' := by
  refine ⟨?_, ?_, ?_, ?_, ?_⟩ <;>
    simp [sanitize_description, sanitizeChars_eq, sanitizeSpecChars_count_newline,
      sanitizeSpecChars_count_pipe, sanitizeSpecChars_count_backslash, noUnescaped,
      sanitizeSpecChars_noUnescaped]

theorem markdown_table_foldl :
    ∀ (rows : List (List Val)) (init : String),
      List.foldl
          (fun acc row =>
            acc ++ "| "
              ++ String.intercalate " | " (row.map (fun cell => sanitize_description (pyStr cell)))
              ++ " |\n")
          init rows
        = init ++ concatList (rows.map renderRow) := by
  intro rows
  induction rows with
  | nil => intro init; simp [concatList]
  | cons row rest ih =>
    intro init
    rw [List.foldl_cons, ih]
    simp only [List.map_cons, concatList, renderRow, ← String.append_assoc]

/-- Claim C6: the table renderer produces exactly one header row, then one
separator row with one fixed-width dash group per header column (a term
depending only on the number of headers, never on any cell), then one row
per record in order, every cell stringified and passed through the
sanitizer between delimiters. -/
theorem markdown_table_structure (headers : List String) (rows : List (List Val)) :
    markdown_table headers rows
      = headerRow headers ++ sepRow headers ++ concatList (rows.map renderRow)
    ∧ (rows.map renderRow).length = rows.length
    ∧ sepRow headers
        = "| " ++ String.intercalate " | " (List.replicate headers.length "---") ++ " |\n"
    ∧ (List.replicate headers.length "---").length = headers.length
    ∧ ∀ row, renderRow row
        = "| " ++ String.intercalate " | "
            (row.map fun cell => sanitize_description (pyStr cell)) ++ " |\n" := by
  refine ⟨?_, by simp, rfl, by simp, fun row => rfl⟩
  rw [markdown_table, markdown_table_foldl]
  simp only [headerRow, sepRow, ← String.append_assoc]

/-- Claim C10: the table renderer enforces no shape precondition: every
record is rendered with exactly its own number of cells, by a term that
never consults the header count; in particular a three-cell record under a
two-column header still yields a table string containing that three-cell
row. -/
theorem markdown_table_shape_tolerant (headers : List String) (row : List Val)
    (rows : List (List Val)) :
    markdown_table headers (row :: rows)
      = headerRow headers ++ sepRow headers ++ renderRow row ++ concatList (rows.map renderRow)
    ∧ (row.map fun cell => sanitize_description (pyStr cell)).length = row.length
    ∧ markdown_table ["A", "B"] [[.str "x", .str "y", .str "z"]]
        = "| A | B |\n| --- | --- |\n| x | y | z |\n" := by
  refine ⟨?_, by simp, rfl⟩
  rw [markdown_table, markdown_table_foldl]
  simp only [List.map_cons, concatList, headerRow, sepRow, ← String.append_assoc]

theorem extract_triggers_foldl (tr : Translator) (f : Bool) :
    ∀ (items : List Val) (init : List TriggerRecord),
      List.foldl
          (fun acc item =>
            acc ++ ((item.getD "triggers" (.list [])).asList.map (mkTriggerRecord tr f)))
          init items
        = init
          ++ items.flatMap
              (fun item => ((item.getD "triggers" (.list [])).asList.map (mkTriggerRecord tr f))) := by
  intro items
  induction items with
  | nil => intro init; simp
  | cons item rest ih =>
    intro init
    rw [List.foldl_cons, ih]
    simp

/-- Claim C2: the trigger extractor returns exactly the concatenation of
every item's nested triggers (iterating items in template order and nested
triggers in nested order) followed by the template-level triggers in
declared order, one record per occurrence with no deduplication; a
template with one item-nested trigger and one top-level trigger yields
exactly those two records, item-nested first. -/
theorem extract_triggers_order (tr : Translator) (f : Bool) (tpl : Val) :
    extract_triggers tr f tpl
      = ((tpl.getD "items" (.list [])).asList.flatMap
            fun item => ((item.getD "triggers" (.list [])).asList).map (mkTriggerRecord tr f))
        ++ ((tpl.getD "triggers" (.list [])).asList).map (mkTriggerRecord tr f)
    ∧ extract_triggers tr f
          (Val.map
            [("items", .list [.map [("triggers", .list [.map [("name", .str "nested")]])]]),
             ("triggers", .list [.map [("name", .str "top")]])])
        = [mkTriggerRecord tr f (.map [("name", .str "nested")]),
           mkTriggerRecord tr f (.map [("name", .str "top")])] := by
  refine ⟨?_, rfl⟩
  rw [extract_triggers, extract_triggers_foldl]
  simp

/-- Claim C7: every extractor substitutes empty text for an absent
optional field and yields the empty record sequence for an absent
collection, so a missing expected field is handled by a lookup default and
never surfaced as an error. -/
theorem extractors_absent_defaults (tr : Translator) (f : Bool)
    (kvs ikvs : List (String × Val)) :
    (lookupKey kvs "items" = Option.none → extract_items tr f (.map kvs) = [])
    ∧ (lookupKey kvs "macros" = Option.none → extract_macros tr f (.map kvs) = [])
    ∧ (lookupKey kvs "items" = Option.none → lookupKey kvs "triggers" = Option.none →
        extract_triggers tr f (.map kvs) = [])
    ∧ (lookupKey kvs "discovery_rules" = Option.none →
        extract_discovery_rules tr f (.map kvs) = [])
    ∧ (lookupKey ikvs "name" = Option.none →
        (extract_items tr f (.map [("items", .list [.map ikvs])])).map ItemRecord.name
          = [.str ""])
    ∧ (lookupKey ikvs "key" = Option.none →
        (extract_items tr f (.map [("items", .list [.map ikvs])])).map ItemRecord.key
          = [.str ""])
    ∧ (lookupKey ikvs "type" = Option.none →
        (extract_items tr f (.map [("items", .list [.map ikvs])])).map ItemRecord.type
          = [.str ""])
    ∧ (lookupKey ikvs "value_type" = Option.none →
        (extract_items tr f (.map [("items", .list [.map ikvs])])).map ItemRecord.value_type
          = [.str ""])
    ∧ (lookupKey ikvs "units" = Option.none →
        (extract_items tr f (.map [("items", .list [.map ikvs])])).map ItemRecord.units
          = [.str ""])
    ∧ (lookupKey ikvs "description" = Option.none →
        (extract_items tr f (.map [("items", .list [.map ikvs])])).map ItemRecord.description
          = [dual_description tr "" f])
    ∧ (lookupKey ikvs "name" = Option.none →
        (extract_triggers tr f (.map [("triggers", .list [.map ikvs])])).map TriggerRecord.name
          = [.str ""])
    ∧ (lookupKey ikvs "macro" = Option.none →
        (extract_macros tr f (.map [("macros", .list [.map ikvs])])).map MacroRecord.macroName
          = [.str ""])
    ∧ (lookupKey ikvs "key" = Option.none →
        (extract_discovery_rules tr f
            (.map [("discovery_rules", .list [.map ikvs])])).map DRuleRecord.key
          = [.str ""]) := by
  refine ⟨fun h => ?_, fun h => ?_, fun h h2 => ?_, fun h => ?_, fun h => ?_, fun h => ?_,
    fun h => ?_, fun h => ?_, fun h => ?_, fun h => ?_, fun h => ?_, fun h => ?_, fun h => ?_⟩ <;>
    simp [extract_items, extract_macros, extract_triggers, extract_discovery_rules,
      mkTriggerRecord, Val.getD, Val.asList, lookupKey, pyStr, *]

theorem extractors_absent_defaults_witness :
    extract_items (fun _ => Except.ok "X") true (.map []) = []
    ∧ extract_macros (fun _ => Except.ok "X") true (.map []) = []
    ∧ extract_triggers (fun _ => Except.ok "X") true (.map []) = []
    ∧ extract_discovery_rules (fun _ => Except.ok "X") true (.map []) = []
    ∧ (extract_items (fun _ => Except.ok "X") true
          (.map [("items", .list [.map []])])).map ItemRecord.name = [.str ""]
    ∧ (extract_items (fun _ => Except.ok "X") true
          (.map [("items", .list [.map []])])).map ItemRecord.key = [.str ""]
    ∧ (extract_items (fun _ => Except.ok "X") true
          (.map [("items", .list [.map []])])).map ItemRecord.type = [.str ""]
    ∧ (extract_items (fun _ => Except.ok "X") true
          (.map [("items", .list [.map []])])).map ItemRecord.value_type = [.str ""]
    ∧ (extract_items (fun _ => Except.ok "X") true
          (.map [("items", .list [.map []])])).map ItemRecord.units = [.str ""]
    ∧ (extract_items (fun _ => Except.ok "X") true
          (.map [("items", .list [.map []])])).map ItemRecord.description
        = [dual_description (fun _ => Except.ok "X") "" true]
    ∧ (extract_triggers (fun _ => Except.ok "X") true
          (.map [("triggers", .list [.map []])])).map TriggerRecord.name = [.str ""]
    ∧ (extract_macros (fun _ => Except.ok "X") true
          (.map [("macros", .list [.map []])])).map MacroRecord.macroName = [.str ""]
    ∧ (extract_discovery_rules (fun _ => Except.ok "X") true
          (.map [("discovery_rules", .list [.map []])])).map DRuleRecord.key = [.str ""] := by
  have h := extractors_absent_defaults (fun _ => Except.ok "X") true [] []
  exact ⟨h.1 rfl, h.2.1 rfl, h.2.2.1 rfl rfl, h.2.2.2.1 rfl, h.2.2.2.2.1 rfl,
    h.2.2.2.2.2.1 rfl, h.2.2.2.2.2.2.1 rfl, h.2.2.2.2.2.2.2.1 rfl,
    h.2.2.2.2.2.2.2.2.1 rfl, h.2.2.2.2.2.2.2.2.2.1 rfl,
    h.2.2.2.2.2.2.2.2.2.2.1 rfl, h.2.2.2.2.2.2.2.2.2.2.2.1 rfl,
    h.2.2.2.2.2.2.2.2.2.2.2.2 rfl⟩

/-- Claim C5: in the rows handed to the table renderer, the item and
item-prototype type and value-type cells are explicitly coerced to their
text form with the string coercion, before the renderer runs. -/
theorem rows_coerce_type_fields (tr : Translator) (f : Bool) (tpl : Val) (j : Nat) :
    (∀ item : Val, ((tpl.getD "items" (.list [])).asList)[j]? = some item →
      (item_rows (extract_items tr f tpl))[j]?
        = some [item.getD "name" (.str ""), item.getD "key" (.str ""),
            .str (pyStr (item.getD "type" (.str ""))),
            .str (pyStr (item.getD "value_type" (.str ""))),
            item.getD "units" (.str ""),
            .str (dual_description tr (pyStr (item.getD "description" (.str ""))) f)])
    ∧ (∀ (protos : List Val) (ip : Val), protos[j]? = some ip →
        (item_proto_rows tr f protos)[j]?
          = some [ip.getD "name" (.str ""), ip.getD "key" (.str ""),
              .str (pyStr (ip.getD "type" (.str ""))),
              .str (pyStr (ip.getD "value_type" (.str ""))),
              ip.getD "units" (.str ""),
              .str (dual_description tr (pyStr (ip.getD "description" (.str ""))) f)]) := by
  constructor
  · intro item h
    simp [item_rows, extract_items, List.getElem?_map, h]
  · intro protos ip h
    simp [item_proto_rows, List.getElem?_map, h]

theorem rows_coerce_type_fields_witness :
    (item_rows (extract_items (fun _ => Except.ok "X") false
        (.map [("items", .list [.map [("type", .int 3)]])])))[0]?
      = some [.str "", .str "", .str "3", .str "", .str "", .str ""]
    ∧ (item_proto_rows (fun _ => Except.ok "X") false [.map [("value_type", .int 4)]])[0]?
      = some [.str "", .str "", .str "", .str "4", .str "", .str ""] := by
  have h := rows_coerce_type_fields (fun _ => Except.ok "X") false
      (.map [("items", .list [.map [("type", .int 3)]])]) 0
  exact ⟨h.1 (.map [("type", .int 3)]) rfl, h.2 [.map [("value_type", .int 4)]] _ rfl⟩

/-- Claim C4: when the external translation provider fails (raises any
exception, modelled as an error result), the augmenter does not surface
the error: it returns the original text unchanged for every flag state,
and whenever the provider was actually consulted it reports the failure on
the diagnostic channel. -/
theorem dual_description_provider_failure (tr : Translator) (t : String) (f : Bool)
    (e : String) (h : tr t = Except.error e) :
    dual_description tr t f = t
    ∧ (f = true → py_strip t ≠ "" →
        (dual_description_run tr t f).2 = some ("Ошибка перевода: " ++ e)) := by
  constructor
  · by_cases hf : f = true
    · subst hf
      by_cases hts : py_strip t = ""
      · simp [dual_description, dual_description_run, hts]
      · simp [dual_description, dual_description_run, hts, h]
    · simp only [Bool.not_eq_true] at hf
      subst hf
      simp [dual_description, dual_description_run]
  · intro hf hts
    subst hf
    simp [dual_description_run, hts, h]

theorem dual_description_provider_failure_witness :
    dual_description (fun _ => Except.error "net") "hello" true = "hello"
    ∧ (dual_description_run (fun _ => Except.error "net") "hello" true).2
        = some ("Ошибка перевода: " ++ "net") := by
  have h := dual_description_provider_failure (fun _ => Except.error "net") "hello" true "net" rfl
  exact ⟨h.1, h.2 rfl (by decide)⟩

/-- Claim C8: with the flag off the augmenter returns its input unchanged
for every input; with the flag on but empty or whitespace-only input it
also returns the input unchanged, and its whole result (value and
diagnostic) does not depend on the provider, so no provider call is
observable. -/
theorem dual_description_flag_off_blank (tr tr2 : Translator) (t : String) :
    dual_description tr t false = t
    ∧ (py_strip t = "" →
        dual_description tr t true = t
        ∧ dual_description_run tr t true = dual_description_run tr2 t true) := by
  refine ⟨by simp [dual_description, dual_description_run], fun hb => ?_⟩
  constructor <;> simp [dual_description, dual_description_run, hb]

theorem dual_description_flag_off_blank_witness :
    dual_description (fun _ => Except.ok "X") "  " false = "  "
    ∧ dual_description (fun _ => Except.ok "X") "  " true = "  "
    ∧ dual_description_run (fun _ => Except.ok "X") "  " true
        = dual_description_run (fun _ => Except.error "boom") "  " true := by
  have h := dual_description_flag_off_blank (fun _ => Except.ok "X")
      (fun _ => Except.error "boom") "  "
  exact ⟨h.1, (h.2 (by decide)).1, (h.2 (by decide)).2⟩

theorem dual_description_false (tr : Translator) (t : String) :
    dual_description tr t false = t := by
  simp [dual_description, dual_description_run]

/-- Claim C1: every section is emitted only when it has at least one
record: the Items, Triggers, Macros and Discovery-rules sections and the
per-rule prototype subsections all render to the empty string when their
record sequence is empty, and a template with no items, triggers, macros
or discovery rules renders only its title heading plus its (possibly
empty) description paragraph; a rule with two item prototypes and no
trigger prototypes gets an Item-prototypes subsection and no
Trigger-prototypes subsection. -/
theorem sections_omitted_when_empty (tr : Translator) (f : Bool) (tpl : Val) :
    (extract_items tr f tpl = [] → render_items_section tr f tpl = "")
    ∧ (extract_triggers tr f tpl = [] → render_triggers_section tr f tpl = "")
    ∧ (extract_macros tr f tpl = [] → render_macros_section tr f tpl = "")
    ∧ (extract_discovery_rules tr f tpl = [] → render_drules_section tr f tpl = "")
    ∧ (∀ dr : Val, (dr.getD "item_prototypes" (.list [])).asList = [] →
        render_item_protos tr f dr = "")
    ∧ (∀ dr : Val, (dr.getD "trigger_prototypes" (.list [])).asList = [] →
        render_trigger_protos tr f dr = "")
    ∧ (py_strip (pyStr (tpl.getD "description" (.str ""))) = "" →
        render_description tr f tpl = "")
    ∧ (extract_items tr f tpl = [] → extract_triggers tr f tpl = [] →
        extract_macros tr f tpl = [] → extract_discovery_rules tr f tpl = [] →
        render_template tr f tpl
          = "# Template: " ++ pyStr (tpl.getD "template" (.str "")) ++ "\n\n"
            ++ render_description tr f tpl)
    ∧ render_item_protos tr f
          (.map [("name", .str "R"),
                 ("item_prototypes", .list [.map [("name", .str "p1")], .map [("name", .str "p2")]])])
        = "### Item prototypes for discovery: " ++ "R" ++ "\n\n"
          ++ markdown_table itemsHeaders
              (item_proto_rows tr f [.map [("name", .str "p1")], .map [("name", .str "p2")]])
          ++ "\n\n"
    ∧ render_trigger_protos tr f
          (.map [("name", .str "R"),
                 ("item_prototypes", .list [.map [("name", .str "p1")], .map [("name", .str "p2")]])])
        = "" := by
  refine ⟨fun h1 => ?_, fun h1 => ?_, fun h1 => ?_, fun h1 => ?_, fun dr h1 => ?_,
    fun dr h1 => ?_, fun h1 => ?_, fun h1 h2 h3 h4 => ?_, rfl, rfl⟩
  · simp [render_items_section, h1]
  · simp [render_triggers_section, h1]
  · simp [render_macros_section, h1]
  · simp [render_drules_section, h1]
  · simp [render_item_protos, h1]
  · simp [render_trigger_protos, h1]
  · simp [render_description, h1]
  · simp [render_template, render_items_section, render_triggers_section,
      render_macros_section, render_drules_section, h1, h2, h3, h4]

theorem sections_omitted_when_empty_witness :
    render_items_section (fun _ => Except.ok "X") true (.map [("template", .str "T")]) = ""
    ∧ render_triggers_section (fun _ => Except.ok "X") true (.map [("template", .str "T")]) = ""
    ∧ render_macros_section (fun _ => Except.ok "X") true (.map [("template", .str "T")]) = ""
    ∧ render_drules_section (fun _ => Except.ok "X") true (.map [("template", .str "T")]) = ""
    ∧ render_item_protos (fun _ => Except.ok "X") true (.map []) = ""
    ∧ render_trigger_protos (fun _ => Except.ok "X") true (.map []) = ""
    ∧ render_description (fun _ => Except.ok "X") true (.map [("template", .str "T")]) = ""
    ∧ render_template (fun _ => Except.ok "X") true (.map [("template", .str "T")])
        = "# Template: "
            ++ pyStr ((Val.map [("template", .str "T")]).getD "template" (.str "")) ++ "\n\n"
          ++ render_description (fun _ => Except.ok "X") true (.map [("template", .str "T")]) := by
  have h := sections_omitted_when_empty (fun _ => Except.ok "X") true
      (.map [("template", .str "T")])
  have h2 := sections_omitted_when_empty (fun _ => Except.ok "X") true (.map [])
  exact ⟨h.1 rfl, h.2.1 rfl, h.2.2.1 rfl, h.2.2.2.1 rfl, h2.2.2.2.2.1 (.map []) rfl,
    h2.2.2.2.2.2.1 (.map []) rfl, h.2.2.2.2.2.2.1 rfl,
    h.2.2.2.2.2.2.2.1 rfl rfl rfl rfl⟩

theorem mkTriggerRecord_false (tr tr2 : Translator) :
    mkTriggerRecord tr false = mkTriggerRecord tr2 false := by
  funext trigger
  simp [mkTriggerRecord, dual_description_false]

theorem extract_items_off (tr tr2 : Translator) (tpl : Val) :
    extract_items tr false tpl = extract_items tr2 false tpl := by
  simp [extract_items, dual_description_false]

theorem extract_triggers_off (tr tr2 : Translator) (tpl : Val) :
    extract_triggers tr false tpl = extract_triggers tr2 false tpl := by
  simp only [extract_triggers, mkTriggerRecord_false tr tr2]

theorem extract_macros_off (tr tr2 : Translator) (tpl : Val) :
    extract_macros tr false tpl = extract_macros tr2 false tpl := by
  simp [extract_macros, dual_description_false]

theorem extract_discovery_rules_off (tr tr2 : Translator) (tpl : Val) :
    extract_discovery_rules tr false tpl = extract_discovery_rules tr2 false tpl := by
  simp [extract_discovery_rules, dual_description_false]

theorem item_proto_rows_off (tr tr2 : Translator) (protos : List Val) :
    item_proto_rows tr false protos = item_proto_rows tr2 false protos := by
  simp [item_proto_rows, dual_description_false]

theorem trigger_proto_rows_off (tr tr2 : Translator) (protos : List Val) :
    trigger_proto_rows tr false protos = trigger_proto_rows tr2 false protos := by
  simp [trigger_proto_rows, dual_description_false]

theorem render_description_off (tr tr2 : Translator) (tpl : Val) :
    render_description tr false tpl = render_description tr2 false tpl := by
  simp [render_description, dual_description_false]

theorem render_items_section_off (tr tr2 : Translator) (tpl : Val) :
    render_items_section tr false tpl = render_items_section tr2 false tpl := by
  simp only [render_items_section]
  rw [extract_items_off tr tr2 tpl]

theorem render_triggers_section_off (tr tr2 : Translator) (tpl : Val) :
    render_triggers_section tr false tpl = render_triggers_section tr2 false tpl := by
  simp only [render_triggers_section]
  rw [extract_triggers_off tr tr2 tpl]

theorem render_macros_section_off (tr tr2 : Translator) (tpl : Val) :
    render_macros_section tr false tpl = render_macros_section tr2 false tpl := by
  simp only [render_macros_section]
  rw [extract_macros_off tr tr2 tpl]

theorem render_item_protos_off (tr tr2 : Translator) (dr : Val) :
    render_item_protos tr false dr = render_item_protos tr2 false dr := by
  simp only [render_item_protos]
  rw [item_proto_rows_off tr tr2]

theorem render_trigger_protos_off (tr tr2 : Translator) (dr : Val) :
    render_trigger_protos tr false dr = render_trigger_protos tr2 false dr := by
  simp only [render_trigger_protos]
  rw [trigger_proto_rows_off tr tr2]

theorem render_drules_section_off (tr tr2 : Translator) (tpl : Val) :
    render_drules_section tr false tpl = render_drules_section tr2 false tpl := by
  have hfun :
      (fun dr => render_item_protos tr false dr ++ render_trigger_protos tr false dr)
        = fun dr => render_item_protos tr2 false dr ++ render_trigger_protos tr2 false dr :=
    funext fun dr => by rw [render_item_protos_off tr tr2 dr, render_trigger_protos_off tr tr2 dr]
  simp only [render_drules_section]
  rw [extract_discovery_rules_off tr tr2 tpl, hfun]

theorem render_template_off (tr tr2 : Translator) (tpl : Val) :
    render_template tr false tpl = render_template tr2 false tpl := by
  simp only [render_template]
  rw [render_description_off tr tr2 tpl, render_items_section_off tr tr2 tpl,
    render_triggers_section_off tr tr2 tpl, render_macros_section_off tr tr2 tpl,
    render_drules_section_off tr tr2 tpl]

/-- Claim C9: with augmentation off the rendering pipeline is
deterministic: the rendered document is a pure function of the parsed
document that does not depend on the external translation provider in any
way, so rendering the same parsed document twice yields byte-identical
output even across provider changes or failures. -/
theorem render_doc_deterministic (tr tr2 : Translator) (data : Val) :
    render_doc tr false data = render_doc tr2 false data := by
  have hfun :
      (fun (acc : String) (tpl : Val) => acc ++ render_template tr false tpl)
        = fun (acc : String) (tpl : Val) => acc ++ render_template tr2 false tpl :=
    funext fun acc => funext fun tpl => by rw [render_template_off tr tr2 tpl]
  simp only [render_doc]
  rw [hfun]
